import Mathlib

/-!
Verification of the AI CV-evaluation task pipeline.

The development shallowly embeds the core of the repository:

* Python strings are `List Char`; Python exceptions are an explicit error
  type threaded through `Except`.
* `json.loads` is a fuel-based JSON reader producing a `Json` value.
* The Gemini service wrapper (`app/services/gemini_service.py`), the
  in-memory vector store (`app/services/vector_db.py`), the document
  processor (`app/utils/document_processor.py`), the evaluation pipeline
  (`app/services/evaluation_pipeline.py`) and the HTTP route handlers
  (`app/api/routes.py`) are translated function by function.  External
  effects (the raw model call, file reads, the simulated delay) are
  oracles supplied through an environment record.
-/

set_option maxRecDepth 100000

namespace CVEval

/-- Python strings are modelled as lists of characters. -/
abbrev PyStr := List Char

/-- The `PyStr` denoted by a Lean string literal. -/
def S (s : String) : PyStr := s.data

/-- Whitespace characters recognised by Python's `str.strip` / `str.split`
(restricted to the ASCII whitespace that can occur in this system). -/
def isWsChar (c : Char) : Bool :=
  c = ' ' || c = '\t' || c = '\n' || c = '\r' || c = Char.ofNat 11 || c = Char.ofNat 12

/-- Python `s.strip()`. -/
def pyStrip (l : PyStr) : PyStr :=
  ((l.dropWhile isWsChar).reverse.dropWhile isWsChar).reverse

/-- Python `s.lower()`. -/
def pyLower (l : PyStr) : PyStr := l.map Char.toLower

/-- Python `s.split()` (split on whitespace runs, discarding empty parts). -/
def pySplitWs (l : PyStr) : List PyStr :=
  (l.splitOnP isWsChar).filter (fun w => ¬ w.isEmpty)

/-- Python `needle in hay` on strings (substring containment). -/
def pyInStr (needle : PyStr) : PyStr → Bool
  | [] => needle.isEmpty
  | c :: rest => needle.isPrefixOf (c :: rest) || pyInStr needle rest

/-- Python slice `l[a:-b]` (`a`, `b` non-negative). -/
def pySliceDropEnds (a b : Nat) (l : PyStr) : PyStr :=
  (l.drop a).take (l.length - a - b)

/-- Python `' '.join(xs)`. -/
def pyJoinSpace (xs : List PyStr) : PyStr :=
  match xs with
  | [] => []
  | x :: rest => rest.foldl (fun acc y => acc ++ [' '] ++ y) x

/-- Python `'\n\n'.join(xs)`. -/
def pyJoinBlank (xs : List PyStr) : PyStr :=
  match xs with
  | [] => []
  | x :: rest => rest.foldl (fun acc y => acc ++ ['\n', '\n'] ++ y) x

/-- Python exceptions that the embedded code can raise or catch. -/
inductive PyError where
  /-- `json.JSONDecodeError` from `json.loads`. -/
  | jsonDecodeError
  /-- `KeyError` from indexing a `dict` with a missing key. -/
  | keyError
  /-- `TypeError`, e.g. from indexing a non-mapping or `**`-unpacking it. -/
  | typeError
  /-- `pydantic.ValidationError` from constructing a model with bad fields. -/
  | validationError
  /-- `ValueError(msg)`. -/
  | valueError (msg : PyStr)
  /-- An exception raised by the underlying generation call. -/
  | gatewayError (msg : PyStr)
  /-- `tenacity.RetryError` wrapping the last attempt's exception. -/
  | retryError (cause : PyError)
deriving DecidableEq, Repr

/-- A rendering of `str(e)`; only the fact that it is recorded matters. -/
def PyError.msg : PyError → PyStr
  | .jsonDecodeError => S "Expecting value"
  | .keyError => S "KeyError"
  | .typeError => S "TypeError"
  | .validationError => S "validation error"
  | .valueError m => m
  | .gatewayError m => m
  | .retryError e => S "RetryError: " ++ e.msg

@[simp] theorem except_bind_ok {α β ε : Type} (a : α) (f : α → Except ε β) :
    (Except.ok a : Except ε α) >>= f = f a := rfl

@[simp] theorem except_bind_error {α β ε : Type} (e : ε) (f : α → Except ε β) :
    (Except.error e : Except ε α) >>= f = Except.error e := rfl

/-! ## JSON values and `json.loads` -/

/-- An exact decimal number `mantissa / 10 ^ shift`, the value space of
the JSON numeric literals this system exchanges (scores, match rates).
Two representations denote the same number when cross-multiplication
agrees; the embedding never needs to identify them. -/
structure Dec where
  mantissa : Int
  shift : Nat
deriving DecidableEq, Repr

instance (n : Nat) : OfNat Dec n := ⟨⟨n, 0⟩⟩

/-- Numeric order on decimals by cross-multiplication. -/
def Dec.le (a b : Dec) : Prop :=
  a.mantissa * 10 ^ b.shift ≤ b.mantissa * 10 ^ a.shift

instance : LE Dec := ⟨Dec.le⟩

instance (a b : Dec) : Decidable (a ≤ b) :=
  inferInstanceAs (Decidable (a.mantissa * 10 ^ b.shift ≤ b.mantissa * 10 ^ a.shift))

/-- The integer denoted by a decimal, when it denotes one (`4` and `4.0`
both do). -/
def Dec.asInt? (d : Dec) : Option Int :=
  if d.mantissa % (10 ^ d.shift : Nat) = 0 then some (d.mantissa / (10 ^ d.shift : Nat))
  else none

/-- JSON values as produced by `json.loads`. -/
inductive Json where
  | null
  | bool (b : Bool)
  | num (q : Dec)
  | str (s : PyStr)
  | arr (items : List Json)
  | obj (fields : List (PyStr × Json))

/-- Whitespace skipped by the JSON grammar. -/
def jsonWs (c : Char) : Bool := c = ' ' || c = '\t' || c = '\n' || c = '\r'

def skipWs : PyStr → PyStr
  | [] => []
  | c :: cs => if jsonWs c then skipWs cs else c :: cs

/-- Translation of a single JSON string escape. -/
def escChar (c : Char) : Option Char :=
  if c = '\"' then some '\"'
  else if c = '\\' then some '\\'
  else if c = '/' then some '/'
  else if c = 'n' then some '\n'
  else if c = 't' then some '\t'
  else if c = 'r' then some '\r'
  else if c = 'b' then some (Char.ofNat 8)
  else if c = 'f' then some (Char.ofNat 12)
  else none

/-- Read the body of a JSON string after the opening quote; returns the
decoded content and the remaining input after the closing quote. -/
def parseStringBody : PyStr → Option (PyStr × PyStr)
  | [] => none
  | '\\' :: rest =>
    match rest with
    | [] => none
    | e :: rest' =>
      match escChar e, parseStringBody rest' with
      | some c, some (s, r) => some (c :: s, r)
      | _, _ => none
  | c :: rest =>
    if c = '\"' then some ([], rest)
    else
      match parseStringBody rest with
      | some (s, r) => some (c :: s, r)
      | none => none

def digitsToNat (ds : PyStr) : Nat :=
  ds.foldl (fun n c => n * 10 + (c.toNat - 48)) 0

/-- Read a JSON number (integer part, optional fraction, optional exponent). -/
def parseNumber (l : PyStr) : Option (Dec × PyStr) :=
  let (neg, l1) := match l with
    | '-' :: r => (true, r)
    | _ => (false, l)
  let intDs := l1.takeWhile Char.isDigit
  let l2 := l1.dropWhile Char.isDigit
  if intDs.isEmpty then none
  else
    let (fracDs, l3) := match l2 with
      | '.' :: r =>
        let f := r.takeWhile Char.isDigit
        (f, r.dropWhile Char.isDigit)
      | _ => ([], l2)
    if l2.length ≠ l3.length ∧ fracDs.isEmpty then none
    else
      let m : Int := digitsToNat intDs * 10 ^ fracDs.length + digitsToNat fracDs
      let signed : Int := if neg then -m else m
      match l3 with
      | 'e' :: r => parseExpPart signed fracDs.length r
      | 'E' :: r => parseExpPart signed fracDs.length r
      | _ => some (⟨signed, fracDs.length⟩, l3)
where
  /-- Read the exponent digits after `e`/`E` and rescale. -/
  parseExpPart (m : Int) (shift : Nat) (r : PyStr) : Option (Dec × PyStr) :=
    let (eneg, r1) := match r with
      | '-' :: r' => (true, r')
      | '+' :: r' => (false, r')
      | _ => (false, r)
    let eDs := r1.takeWhile Char.isDigit
    if eDs.isEmpty then none
    else
      let e := digitsToNat eDs
      let d : Dec :=
        if eneg then ⟨m, shift + e⟩
        else if e ≤ shift then ⟨m, shift - e⟩
        else ⟨m * 10 ^ (e - shift), 0⟩
      some (d, r1.dropWhile Char.isDigit)

mutual
/-- Read one JSON value (leading whitespace allowed). -/
def parseValue : Nat → PyStr → Option (Json × PyStr)
  | 0, _ => none
  | fuel + 1, l =>
    match skipWs l with
    | [] => none
    | c :: rest =>
      if c = '\"' then
        match parseStringBody rest with
        | some (s, r) => some (.str s, r)
        | none => none
      else if c = Char.ofNat 91 then  -- '['
        parseItems fuel (skipWs rest) true
      else if c = Char.ofNat 123 then  -- opening brace
        parseMembers fuel (skipWs rest) true
      else if (S "null").isPrefixOf (c :: rest) then some (.null, (c :: rest).drop 4)
      else if (S "true").isPrefixOf (c :: rest) then some (.bool true, (c :: rest).drop 4)
      else if (S "false").isPrefixOf (c :: rest) then some (.bool false, (c :: rest).drop 5)
      else
        match parseNumber (c :: rest) with
        | some (q, r) => some (.num q, r)
        | none => none

/-- Read the items of an array after `[`; `first` is true before any item. -/
def parseItems : Nat → PyStr → Bool → Option (Json × PyStr)
  | 0, _, _ => none
  | fuel + 1, l, first =>
    match l, first with
    | c :: rest, true =>
      if c = Char.ofNat 93 then some (.arr [], rest)  -- ']'
      else
        match parseValue fuel l with
        | some (v, r) => parseItemsTail fuel v [] (skipWs r)
        | none => none
    | _, _ => none

/-- After one array item: expect `,` and another item, or `]`. -/
def parseItemsTail : Nat → Json → List Json → PyStr → Option (Json × PyStr)
  | 0, _, _, _ => none
  | fuel + 1, v, acc, l =>
    match l with
    | c :: rest =>
      if c = Char.ofNat 93 then some (.arr (v :: acc).reverse, rest)
      else if c = ',' then
        match parseValue fuel rest with
        | some (v', r) => parseItemsTail fuel v' (v :: acc) (skipWs r)
        | none => none
      else none
    | [] => none

/-- Read the members of an object after the opening brace. -/
def parseMembers : Nat → PyStr → Bool → Option (Json × PyStr)
  | 0, _, _ => none
  | fuel + 1, l, first =>
    match l, first with
    | c :: rest, true =>
      if c = Char.ofNat 125 then some (.obj [], rest)  -- closing brace
      else
        match parseMember fuel l with
        | some (k, v, r) => parseMembersTail fuel [(k, v)] (skipWs r)
        | none => none
    | _, _ => none

/-- Read one `"key": value` member. -/
def parseMember : Nat → PyStr → Option (PyStr × Json × PyStr)
  | 0, _ => none
  | fuel + 1, l =>
    match l with
    | c :: rest =>
      if c = '\"' then
        match parseStringBody rest with
        | some (k, r) =>
          match skipWs r with
          | ':' :: r' =>
            match parseValue fuel r' with
            | some (v, r'') => some (k, v, r'')
            | none => none
          | _ => none
        | none => none
      else none
    | [] => none

/-- After one object member: expect `,` and another member, or the closing
brace. -/
def parseMembersTail : Nat → List (PyStr × Json) → PyStr → Option (Json × PyStr)
  | 0, _, _ => none
  | fuel + 1, acc, l =>
    match l with
    | c :: rest =>
      if c = Char.ofNat 125 then some (.obj acc.reverse, rest)
      else if c = ',' then
        match skipWs rest with
        | r =>
          match parseMember fuel r with
          | some (k, v, r') => parseMembersTail fuel ((k, v) :: acc) (skipWs r')
          | none => none
      else none
    | [] => none
end

/-- `json.loads`: the whole input must be one JSON value surrounded by
optional whitespace; any failure is a `JSONDecodeError`. -/
def json_loads (s : PyStr) : Except PyError Json :=
  match parseValue (2 * s.length + 4) s with
  | some (v, rest) => if skipWs rest = [] then .ok v else .error .jsonDecodeError
  | none => .error .jsonDecodeError

/-- Python dict lookup on the assoc list produced by the JSON reader
(later duplicate keys shadow earlier ones, as in `dict`). -/
def lookupLast (key : PyStr) : List (PyStr × Json) → Option Json
  | [] => none
  | (k, v) :: rest =>
    match lookupLast key rest with
    | some r => some r
    | none => if k = key then some v else none

/-- Python `data[key]`: `KeyError` on a missing key of a mapping,
`TypeError` when the subject is not a mapping. -/
def pyGetItem (data : Json) (key : PyStr) : Except PyError Json :=
  match data with
  | .obj fields =>
    match lookupLast key fields with
    | some v => .ok v
    | none => .error .keyError
  | _ => .error .typeError

/-! ## Pydantic models (`app/models/schemas.py`) -/

/-- `CVEvaluation`: five sub-scores, each constrained to `[1, 5]`. -/
structure CVEvaluation where
  technical_skills_match : Dec
  experience_level : Dec
  relevant_achievements : Dec
  cultural_fit : Dec
  overall_score : Dec
deriving DecidableEq, Repr

/-- `ProjectEvaluation`: six sub-scores, each constrained to `[1, 5]`. -/
structure ProjectEvaluation where
  correctness : Dec
  code_quality : Dec
  resilience : Dec
  documentation : Dec
  creativity : Dec
  overall_score : Dec
deriving DecidableEq, Repr

/-- `ExtractedCVData`: the structured candidate profile. -/
structure ExtractedCVData where
  skills : List PyStr
  experiences : List PyStr
  projects : List PyStr
  education : List PyStr
  years_of_experience : Option Int
  achievements : List PyStr
deriving DecidableEq, Repr

/-- The profile substituted when CV extraction fails to parse. -/
def ExtractedCVData.empty : ExtractedCVData :=
  { skills := [], experiences := [], projects := [],
    education := [], achievements := [], years_of_experience := none }

/-- `EvaluationResult`: the terminal payload of a completed task. -/
structure EvaluationResult where
  cv_match_rate : Dec
  cv_feedback : PyStr
  project_score : Dec
  project_feedback : PyStr
  overall_summary : PyStr
  cv_evaluation_details : Option CVEvaluation
  project_evaluation_details : Option ProjectEvaluation
deriving DecidableEq, Repr

/-- A required pydantic float field with `ge`/`le` bounds: present,
numeric, and within the closed range, else `ValidationError`. -/
def fieldNum (fields : List (PyStr × Json)) (key : PyStr) (lo hi : Dec) :
    Except PyError Dec :=
  match lookupLast key fields with
  | some (.num q) => if lo ≤ q ∧ q ≤ hi then .ok q else .error .validationError
  | some _ => .error .validationError
  | none => .error .validationError

/-- A pydantic `List[str]` field value. -/
def asStrList : Json → Except PyError (List PyStr)
  | .arr items => allStr items
  | _ => .error .validationError
where
  allStr : List Json → Except PyError (List PyStr)
    | [] => .ok []
    | .str s :: rest => do pure (s :: (← allStr rest))
    | _ => .error .validationError

/-- A required pydantic `List[str]` field. -/
def fieldStrList (fields : List (PyStr × Json)) (key : PyStr) :
    Except PyError (List PyStr) :=
  match lookupLast key fields with
  | some j => asStrList j
  | none => .error .validationError

/-- `CVEvaluation(**data)`: `TypeError` when `data` is not a mapping,
`ValidationError` when a required sub-score is missing, non-numeric or
out of `[1, 5]`. -/
def CVEvaluation.validate (data : Json) : Except PyError CVEvaluation :=
  match data with
  | .obj fields => do
    let t ← fieldNum fields (S "technical_skills_match") 1 5
    let e ← fieldNum fields (S "experience_level") 1 5
    let r ← fieldNum fields (S "relevant_achievements") 1 5
    let c ← fieldNum fields (S "cultural_fit") 1 5
    let o ← fieldNum fields (S "overall_score") 1 5
    pure { technical_skills_match := t, experience_level := e,
           relevant_achievements := r, cultural_fit := c, overall_score := o }
  | _ => .error .typeError

/-- `ProjectEvaluation(**data)`. -/
def ProjectEvaluation.validate (data : Json) : Except PyError ProjectEvaluation :=
  match data with
  | .obj fields => do
    let c ← fieldNum fields (S "correctness") 1 5
    let q ← fieldNum fields (S "code_quality") 1 5
    let r ← fieldNum fields (S "resilience") 1 5
    let d ← fieldNum fields (S "documentation") 1 5
    let cr ← fieldNum fields (S "creativity") 1 5
    let o ← fieldNum fields (S "overall_score") 1 5
    pure { correctness := c, code_quality := q, resilience := r,
           documentation := d, creativity := cr, overall_score := o }
  | _ => .error .typeError

/-- `ExtractedCVData(**data)`: the five list fields are required;
`years_of_experience` is optional with default `None`. -/
def ExtractedCVData.validate (data : Json) : Except PyError ExtractedCVData :=
  match data with
  | .obj fields => do
    let skills ← fieldStrList fields (S "skills")
    let experiences ← fieldStrList fields (S "experiences")
    let projects ← fieldStrList fields (S "projects")
    let education ← fieldStrList fields (S "education")
    let yoe ← (match lookupLast (S "years_of_experience") fields with
      | none => .ok none
      | some .null => .ok none
      | some (.num q) =>
        (match q.asInt? with
          | some i => .ok (some i)
          | none => .error .validationError)
      | some _ => (.error .validationError : Except PyError (Option Int)))
    let achievements ← fieldStrList fields (S "achievements")
    pure { skills := skills, experiences := experiences, projects := projects,
           education := education, years_of_experience := yoe,
           achievements := achievements }
  | _ => .error .typeError

/-- A bounded numeric pydantic field given directly as a value. -/
def asBoundedNum (j : Json) (lo hi : Dec) : Except PyError Dec :=
  match j with
  | .num q => if lo ≤ q ∧ q ≤ hi then .ok q else .error .validationError
  | _ => .error .validationError

/-- A pydantic `str` field given directly as a value. -/
def asStr (j : Json) : Except PyError PyStr :=
  match j with
  | .str s => .ok s
  | _ => .error .validationError

/-- `EvaluationResult(...)` as built at the end of the pipeline:
`cv_match_rate` must be numeric in `[0, 1]`, `project_score` numeric in
`[1, 10]`, the feedback values strings. -/
def mkEvaluationResult (mr fb ps pfb : Json) (summary : PyStr)
    (ce : CVEvaluation) (pe : ProjectEvaluation) : Except PyError EvaluationResult := do
  let mrq ← asBoundedNum mr 0 1
  let fbs ← asStr fb
  let psq ← asBoundedNum ps 1 10
  let pfs ← asStr pfb
  pure { cv_match_rate := mrq, cv_feedback := fbs, project_score := psq,
         project_feedback := pfs, overall_summary := summary,
         cv_evaluation_details := some ce, project_evaluation_details := some pe }

/-! ## AI gateway (`app/services/gemini_service.py`) -/

/-- The `tenacity` retry loop configured on `generate_content_async`:
`stop_after_attempt(3)`, retry on any exception (`retry_if_exception_type
((Exception,))`), default `reraise=False`, so exhausting the attempts
raises `tenacity.RetryError` wrapping the last attempt's exception.
`call i` is the outcome of the `i`-th underlying `model.generate_content`
call; the exponential backoff only delays attempts and cannot change
their outcomes.  Returns the result paired with the number of the last
attempt made.  `remaining` counts the attempts still allowed after the
current one. -/
def retryLoop (call : Nat → Except PyError PyStr) :
    Nat → Nat → Except PyError PyStr × Nat
  | attempt, 0 =>
    match call attempt with
    | .ok s => (.ok s, attempt)
    | .error e => (.error (.retryError e), attempt)
  | attempt, remaining + 1 =>
    match call attempt with
    | .ok s => (.ok s, attempt)
    | .error _ => retryLoop call (attempt + 1) remaining

/-- `generate_content_async` (the `@retry`-decorated wrapper): up to 3
attempts in total, starting at attempt 1. -/
def generate_content_async (call : Nat → Except PyError PyStr) :
    Except PyError PyStr × Nat :=
  retryLoop call 1 2

/-- The response-cleaning snippet shared by the service steps: `strip()`,
then drop a leading ```` ```json ```` or ```` ``` ```` fence together with
the trailing three characters. -/
def cleanJsonText (response : PyStr) : PyStr :=
  let json_text := pyStrip response
  if (S "```json").isPrefixOf json_text then pySliceDropEnds 7 3 json_text
  else if (S "```").isPrefixOf json_text then pySliceDropEnds 3 3 json_text
  else json_text

/-- `extract_cv_structure`, given the outcome `resp` of its
`generate_content_async` call.  Only `json.JSONDecodeError` is caught
(yielding the default empty profile); gateway errors and pydantic
validation errors propagate. -/
def extract_cv_structure (resp : Except PyError PyStr) :
    Except PyError ExtractedCVData :=
  match resp with
  | .error e => .error e
  | .ok response =>
    match json_loads (cleanJsonText response) with
    | .error _ => .ok ExtractedCVData.empty
    | .ok data => ExtractedCVData.validate data

/-- The fallback returned by `evaluate_cv_match` when parsing fails:
match rate `0.5`, generic feedback, all sub-scores `3`. -/
def cvMatchFallback : Json × Json × CVEvaluation :=
  (Json.num ⟨5, 1⟩, Json.str (S "Unable to evaluate CV properly"),
   { technical_skills_match := 3, experience_level := 3,
     relevant_achievements := 3, cultural_fit := 3, overall_score := 3 })

/-- `evaluate_cv_match`, given the outcome of its generation call.  The
`match_rate` and `feedback` values are returned as raw JSON values, as in
the source (they are only validated later by `EvaluationResult`).
`json.JSONDecodeError` and `KeyError` are caught and replaced by the
fallback; other exceptions propagate. -/
def evaluate_cv_match (resp : Except PyError PyStr) :
    Except PyError (Json × Json × CVEvaluation) :=
  match resp with
  | .error e => .error e
  | .ok response =>
    let attempt : Except PyError (Json × Json × CVEvaluation) := do
      let data ← json_loads (cleanJsonText response)
      let ds ← pyGetItem data (S "detailed_scores")
      let cv_evaluation ← CVEvaluation.validate ds
      let mr ← pyGetItem data (S "match_rate")
      let fb ← pyGetItem data (S "feedback")
      pure (mr, fb, cv_evaluation)
    match attempt with
    | .error .jsonDecodeError => .ok cvMatchFallback
    | .error .keyError => .ok cvMatchFallback
    | other => other

/-- The fallback returned by `evaluate_project_report` when parsing
fails: score `5.0`, generic feedback, all sub-scores `3`. -/
def projectFallback : Json × Json × ProjectEvaluation :=
  (Json.num 5, Json.str (S "Unable to evaluate project properly"),
   { correctness := 3, code_quality := 3, resilience := 3,
     documentation := 3, creativity := 3, overall_score := 3 })

/-- `evaluate_project_report`, given the outcomes of its two generation
calls (initial evaluation, then refinement).  The initial response must
parse as JSON before the refinement call is made; the refined result
supersedes the initial one.  `json.JSONDecodeError` and `KeyError`
anywhere in the block are caught and replaced by the fallback; gateway
errors and validation errors propagate. -/
def evaluate_project_report (resp1 resp2 : Except PyError PyStr) :
    Except PyError (Json × Json × ProjectEvaluation) :=
  let attempt : Except PyError (Json × Json × ProjectEvaluation) := do
    let initial_response ← resp1
    let _initial_data ← json_loads (cleanJsonText initial_response)
    let refined_response ← resp2
    let refined_data ← json_loads (cleanJsonText refined_response)
    let ds ← pyGetItem refined_data (S "detailed_scores")
    let project_evaluation ← ProjectEvaluation.validate ds
    let score ← pyGetItem refined_data (S "score")
    let fb ← pyGetItem refined_data (S "feedback")
    pure (score, fb, project_evaluation)
  match attempt with
  | .error .jsonDecodeError => .ok projectFallback
  | .error .keyError => .ok projectFallback
  | other => other

/-- `generate_overall_summary`: every exception from the generation call
is absorbed and a fixed sentence substituted. -/
def generate_overall_summary (resp : Except PyError PyStr) : PyStr :=
  match resp with
  | .ok s => s
  | .error _ => S "Unable to generate comprehensive summary due to evaluation errors."

/-! ## Context store (`app/services/vector_db.py`) -/

/-- A stored document: a Python dict from string keys to string values. -/
abbrev DocDict := List (String × PyStr)

/-- `self.documents`: an insertion-ordered dict `id ↦ document`. -/
abbrev Store := List (String × DocDict)

/-- One retrieved document as built by `retrieve_context` (the two
`metadata` entries are flattened into fields). -/
structure RetrievedDoc where
  content : PyStr
  mtype : PyStr
  category : PyStr
  score : Nat
deriving DecidableEq, Repr

/-- `doc_data[key]` on a document dict: `KeyError` when missing. -/
def dictGetE (d : DocDict) (key : String) : Except PyError PyStr :=
  match d.lookup key with
  | some v => .ok v
  | none => .error .keyError

/-- Stable insertion of `x` into a list sorted by descending `key`: `x`
goes before the first element whose key is not larger, so elements
already in the list keep their order among equal keys. -/
def insertDescBy {α : Type} (key : α → Nat) (x : α) : List α → List α
  | [] => [x]
  | y :: ys => if key y ≤ key x then x :: y :: ys else y :: insertDescBy key x ys

/-- Stable sort by descending `key`, modelling Python's stable
`list.sort(key=..., reverse=True)`. -/
def sortDescBy {α : Type} (key : α → Nat) : List α → List α
  | [] => []
  | x :: xs => insertDescBy key x (sortDescBy key xs)

/-- `sum(1 for word in query_words if word in content_lower)`. -/
def keywordScore (query_words : List PyStr) (content_lower : PyStr) : Nat :=
  (query_words.filter (fun word => pyInStr word content_lower)).length

/-- The document loop of `retrieve_context`: walk the documents in
insertion order, skip those failing the type filter, score the rest, and
keep the positively scored ones.  Dict accesses can raise `KeyError`. -/
def collectDocs (query_words : List PyStr) (context_type : Option PyStr) :
    Store → Except PyError (List RetrievedDoc)
  | [] => .ok []
  | (_, doc_data) :: rest => do
    let keep ← (match context_type with
      | some t => do
        let dt ← dictGetE doc_data "type"
        pure (decide (dt = t))
      | none => pure true)
    if keep then do
      let content ← dictGetE doc_data "content"
      let score := keywordScore query_words (pyLower content)
      if 0 < score then do
        let dt ← dictGetE doc_data "type"
        let cat ← dictGetE doc_data "category"
        let tail ← collectDocs query_words context_type rest
        pure ({ content := content, mtype := dt, category := cat,
                score := score } :: tail)
      else collectDocs query_words context_type rest
    else collectDocs query_words context_type rest

/-- The body of `retrieve_context` (inside the `try`). -/
def retrieve_context_body (store : Store) (query : PyStr)
    (context_type : Option PyStr) (n_results : Nat) :
    Except PyError (List RetrievedDoc) := do
  let query_words := pySplitWs (pyLower query)
  let retrieved_docs ← collectDocs query_words context_type store
  pure ((sortDescBy (fun d => d.score) retrieved_docs).take n_results)

/-- `retrieve_context`: the whole body runs under `try`, and any
exception is absorbed by returning the empty list. -/
def retrieve_context (store : Store) (query : PyStr)
    (context_type : Option PyStr) (n_results : Nat) : List RetrievedDoc :=
  match retrieve_context_body store query context_type n_results with
  | .ok docs => docs
  | .error _ => []

/-- Content of the `job_desc_backend` document.  The triple-quoted
literal's leading indentation (whitespace only) is not reproduced. -/
def jobDescBackendContent : PyStr := S "
Backend Developer Position Requirements:

Technical Skills Required:
- Proficiency in Python, Java, or Node.js
- Experience with REST API development and design
- Knowledge of databases (SQL and NoSQL)
- Cloud platforms experience (AWS, GCP, Azure)
- Understanding of microservices architecture
- Version control with Git
- Experience with Docker and containerization
- API documentation and testing

Experience Requirements:
- 3+ years of backend development experience
- Experience with high-traffic applications
- Knowledge of system design principles
- Experience with CI/CD pipelines
- Understanding of security best practices

Preferred Skills:
- AI/ML integration experience
- Experience with LLM APIs
- Knowledge of vector databases
- Experience with async programming
- DevOps and infrastructure knowledge

Cultural Fit:
- Strong problem-solving skills
- Good communication abilities
- Team collaboration experience
- Continuous learning mindset
- Attention to detail
"

/-- Content of the `scoring_rubric_cv` document. -/
def scoringRubricCvContent : PyStr := S "
CV Evaluation Scoring Rubric:

Technical Skills Match (1-5):
5 - Exceptional: All required skills + advanced expertise
4 - Strong: Most required skills + some advanced areas
3 - Good: Core required skills present
2 - Adequate: Some required skills, gaps present
1 - Insufficient: Major skill gaps

Experience Level (1-5):
5 - Senior level with complex project leadership
4 - Mid-senior with significant contributions
3 - Mid-level with relevant experience
2 - Junior with some relevant experience
1 - Entry level or limited experience

Relevant Achievements (1-5):
5 - Outstanding achievements with measurable impact
4 - Strong achievements in relevant areas
3 - Good achievements demonstrating competence
2 - Some achievements, limited impact shown
1 - Few or no relevant achievements

Cultural Fit (1-5):
5 - Excellent communication, leadership, learning attitude
4 - Strong collaboration and communication skills
3 - Good team player with communication skills
2 - Adequate interpersonal skills
1 - Limited evidence of soft skills
"

/-- Content of the `scoring_rubric_project` document. -/
def scoringRubricProjectContent : PyStr := S "
Project Deliverable Evaluation Rubric:

Correctness (1-5):
5 - Fully meets all requirements with excellent implementation
4 - Meets most requirements with good implementation
3 - Meets core requirements adequately
2 - Partially meets requirements
1 - Fails to meet basic requirements

Code Quality (1-5):
5 - Exceptional: Clean, modular, well-documented, testable
4 - Good: Well-structured with good practices
3 - Adequate: Readable with some structure
2 - Poor: Limited structure, hard to follow
1 - Very poor: Messy, unorganized code

Resilience (1-5):
5 - Comprehensive error handling, retries, fault tolerance
4 - Good error handling with some resilience features
3 - Basic error handling present
2 - Limited error handling
1 - Poor or no error handling

Documentation (1-5):
5 - Excellent: Complete README, API docs, design explanations
4 - Good: Clear README with setup and usage instructions
3 - Adequate: Basic documentation present
2 - Limited: Minimal documentation
1 - Poor: Little to no documentation

Creativity/Bonus (1-5):
5 - Exceptional additional features and innovations
4 - Good additional features or improvements
3 - Some creative elements or enhancements
2 - Minor additional features
1 - No additional features beyond requirements
"

/-- The store populated by `_populate_initial_data`, in insertion order. -/
def defaultStore : Store :=
  [("job_desc_backend",
    [("id", S "job_desc_backend"), ("content", jobDescBackendContent),
     ("type", S "job_description"), ("category", S "backend_developer")]),
   ("scoring_rubric_cv",
    [("id", S "scoring_rubric_cv"), ("content", scoringRubricCvContent),
     ("type", S "scoring_rubric"), ("category", S "cv_evaluation")]),
   ("scoring_rubric_project",
    [("id", S "scoring_rubric_project"), ("content", scoringRubricProjectContent),
     ("type", S "scoring_rubric"), ("category", S "project_evaluation")])]

/-- The relevance measure as worded by the spec: the number of
case-insensitive, whitespace-split query terms that occur as substrings
of the document content. -/
def relevance (query content : PyStr) : Nat :=
  ((pySplitWs (pyLower query)).filter
    (fun term => pyInStr term (pyLower content))).length

/-- The candidate documents of the spec's `retrieve` contract: those of
the requested type with positive relevance, in insertion order, carrying
their relevance as score. -/
def specCandidates (store : Store) (query : PyStr)
    (type_filter : Option PyStr) : List RetrievedDoc :=
  store.filterMap fun entry =>
    let doc := entry.2
    let content := (doc.lookup "content").getD []
    let dtype := (doc.lookup "type").getD []
    let matchesType := match type_filter with
      | some t => decide (dtype = t)
      | none => true
    if matchesType && decide (0 < relevance query content) then
      some { content := content, mtype := dtype,
             category := (doc.lookup "category").getD [],
             score := relevance query content }
    else none

/-- The context-store `retrieve` contract as worded by the spec:
documents of the requested type with positive relevance, stably sorted by
descending relevance (ties keep insertion order), truncated to `limit`. -/
def retrieve_spec (store : Store) (query : PyStr)
    (type_filter : Option PyStr) (limit : Nat) : List RetrievedDoc :=
  (sortDescBy (fun d => d.score) (specCandidates store query type_filter)).take limit

/-- Well-formedness of a store: every document carries the three fields
that `retrieve_context` reads. -/
def WFStore (store : Store) : Prop :=
  ∀ e ∈ store, (e.2.lookup "content").isSome ∧ (e.2.lookup "type").isSome ∧
    (e.2.lookup "category").isSome

instance (store : Store) : Decidable (WFStore store) := by
  unfold WFStore
  infer_instance

/-! ## Document processor (`app/utils/document_processor.py`) -/

/-- The basename of a path (the part after the last `/`). -/
def afterLastSlash (l : PyStr) : PyStr :=
  (l.reverse.takeWhile (fun c => c ≠ '/')).reverse

/-- The extension computed by `os.path.splitext(path)[1]`: the suffix
from the last dot of the basename, empty when there is no dot or when
every character before that dot is itself a dot. -/
def splitextExt (path : PyStr) : PyStr :=
  let base := afterLastSlash path
  let rev := base.reverse
  let extRev := rev.takeWhile (fun c => c ≠ '.')
  if extRev.length = rev.length then []
  else
    let stem := base.take (base.length - extRev.length - 1)
    if stem.all (fun c => c = '.') then []
    else '.' :: extRev.reverse

/-- `DocumentProcessor.validate_file_format`. -/
def validate_file_format (filename : PyStr) : Bool :=
  let file_extension := pyLower (splitextExt filename)
  [S ".pdf", S ".docx", S ".doc", S ".txt"].contains file_extension

/-! ## Evaluation pipeline (`app/services/evaluation_pipeline.py`) -/

/-- `TaskStatus` from `app/models/schemas.py`. -/
inductive TaskStatus where
  | queued
  | processing
  | completed
  | failed
deriving DecidableEq, Repr

/-- One row of the `evaluation_tasks` table. -/
structure TaskRow where
  id : String
  status : TaskStatus
  cv_file_path : PyStr
  project_report_path : PyStr
  job_description : Option PyStr
  result : Option EvaluationResult
  error_message : Option PyStr
  created_at : Nat
deriving DecidableEq, Repr

/-- The environment of one pipeline run: the context store, the
format-specific file readers, the outcome of the simulated-failure dice
roll, and the outcome of `generate_content_async` at each of the five
call sites (in call order). -/
structure PipelineEnv where
  store : Store
  readPdf : PyStr → Except PyError PyStr
  readDocx : PyStr → Except PyError PyStr
  readTxt : PyStr → Except PyError PyStr
  delayFailure : Option PyStr
  cvExtractResp : Except PyError PyStr
  cvMatchResp : Except PyError PyStr
  projInitResp : Except PyError PyStr
  projRefineResp : Except PyError PyStr
  summaryResp : Except PyError PyStr

/-- `DocumentProcessor.extract_text_from_file`: dispatch on the lowered
extension; unknown extensions raise `ValueError`; reader errors
propagate (the outer `except` only logs and re-raises). -/
def extract_text_from_file (env : PipelineEnv) (file_path : PyStr) :
    Except PyError PyStr :=
  let file_extension := pyLower (splitextExt file_path)
  if file_extension = S ".pdf" then env.readPdf file_path
  else if file_extension = S ".docx" ∨ file_extension = S ".doc" then
    env.readDocx file_path
  else if file_extension = S ".txt" then env.readTxt file_path
  else .error (.valueError (S "Unsupported file format: " ++ file_extension))

/-- `EvaluationPipeline._execute_pipeline`: the 4-step sequence.  The
extracted texts and retrieved contexts only feed prompts, so they are
bound (their failures propagate) but otherwise unused here. -/
def _execute_pipeline (env : PipelineEnv) (task : TaskRow) :
    Except PyError EvaluationResult := do
  let _cv_text ← extract_text_from_file env task.cv_file_path
  let _project_text ← extract_text_from_file env task.project_report_path
  let cv_data ← extract_cv_structure env.cvExtractResp
  let _job_context := retrieve_context env.store
    (S "backend developer requirements " ++ pyJoinSpace (cv_data.skills.take 5))
    (some (S "job_description")) 2
  let _cv_context := retrieve_context env.store
    (S "CV evaluation scoring technical skills experience")
    (some (S "scoring_rubric")) 1
  let _combined_cv_context :=
    pyJoinBlank ((_job_context ++ _cv_context).map (fun d => d.content))
  let (cv_match_rate, cv_feedback, cv_evaluation) ←
    evaluate_cv_match env.cvMatchResp
  let _project_context := retrieve_context env.store
    (S "project evaluation rubric code quality correctness resilience documentation")
    (some (S "scoring_rubric")) 2
  let _project_rubric := pyJoinBlank (_project_context.map (fun d => d.content))
  let (project_score, project_feedback, project_evaluation) ←
    evaluate_project_report env.projInitResp env.projRefineResp
  let overall_summary := generate_overall_summary env.summaryResp
  mkEvaluationResult cv_match_rate cv_feedback project_score project_feedback
    overall_summary cv_evaluation project_evaluation

/-- `EvaluationPipeline.run_evaluation` viewed as the sequence of states
its task's row goes through: first the row as picked up, then the
committed `processing` update, then the committed terminal update (the
simulated delay may fail before the pipeline runs; any exception marks
the task failed with the exception's message). -/
def run_evaluation (env : PipelineEnv) (task : TaskRow) : List TaskRow :=
  let processing := { task with status := .processing }
  match env.delayFailure with
  | some msg =>
    [task, processing,
     { processing with status := .failed, error_message := some msg }]
  | none =>
    match _execute_pipeline env task with
    | .ok evaluation_result =>
      [task, processing,
       { processing with status := .completed, result := some evaluation_result }]
    | .error e =>
      [task, processing,
       { processing with status := .failed, error_message := some e.msg }]

/-- The status in which a run leaves the task. -/
def finalStatus (trace : List TaskRow) : Option TaskStatus :=
  trace.getLast?.map (fun r => r.status)

/-! ## HTTP routes (`app/api/routes.py`) -/

/-- `fastapi.HTTPException`. -/
structure HTTPException where
  status_code : Nat
  detail : PyStr
deriving DecidableEq, Repr

def MAX_FILE_SIZE : Nat := 10 * 1024 * 1024

/-- The `/evaluate` handler `create_evaluation_task`: given path strings,
it checks only that both files exist (404 otherwise) and then creates a
`queued` task; no format or size validation happens here.  `exists_file`
models `os.path.exists`; `newId`/`now` model the generated id and the
`created_at` timestamp. -/
def create_evaluation_task (exists_file : PyStr → Bool)
    (cv_file_path project_report_path job_description : PyStr)
    (newId : String) (now : Nat) : Except HTTPException TaskRow :=
  if exists_file cv_file_path = false then
    .error { status_code := 404, detail := S "CV file not found" }
  else if exists_file project_report_path = false then
    .error { status_code := 404, detail := S "Project report file not found" }
  else
    .ok { id := newId, status := .queued, cv_file_path := cv_file_path,
          project_report_path := project_report_path,
          job_description := some job_description, result := none,
          error_message := none, created_at := now }

/-- The `/evaluate-direct` handler `evaluate_files_direct` up to task
creation: validate both filename formats (400), then both sizes (400),
then save under `uploads/` and create a `queued` task. -/
def evaluate_files_direct (cv_filename project_filename : PyStr)
    (cv_size project_size : Nat) (job_description : PyStr)
    (session_id newId : String) (now : Nat) : Except HTTPException TaskRow :=
  if validate_file_format cv_filename = false then
    .error { status_code := 400,
             detail := S "Invalid CV file format. Supported: PDF, DOCX, TXT" }
  else if validate_file_format project_filename = false then
    .error { status_code := 400,
             detail := S "Invalid project report file format. Supported: PDF, DOCX, TXT" }
  else if MAX_FILE_SIZE < cv_size then
    .error { status_code := 400, detail := S "CV file too large (max 10MB)" }
  else if MAX_FILE_SIZE < project_size then
    .error { status_code := 400,
             detail := S "Project report file too large (max 10MB)" }
  else
    .ok { id := newId, status := .queued,
          cv_file_path := S "uploads/" ++ S session_id ++ S "_cv_" ++ cv_filename,
          project_report_path :=
            S "uploads/" ++ S session_id ++ S "_project_" ++ project_filename,
          job_description := some job_description, result := none,
          error_message := none, created_at := now }

/-- The response assembled by the `/result/task_id` handler. -/
structure TaskResultView where
  id : String
  status : TaskStatus
  result : Option EvaluationResult
  error : Option PyStr
deriving DecidableEq, Repr

/-- `get_evaluation_result`: 404 for an unknown id; `result` is exposed
only on a completed task, `error` only on a failed one. -/
def get_evaluation_result (tasks : List TaskRow) (task_id : String) :
    Except HTTPException TaskResultView :=
  match tasks.find? (fun t => t.id == task_id) with
  | none => .error { status_code := 404, detail := S "Task not found" }
  | some task =>
    .ok { id := task.id, status := task.status,
          result :=
            if task.status = .completed ∧ task.result.isSome then task.result
            else none,
          error :=
            if task.status = .failed ∧ task.error_message.isSome then
              task.error_message
            else none }

/-- `list_tasks`: newest first, then `OFFSET`/`LIMIT`. -/
def list_tasks (tasks : List TaskRow) (limit offset : Nat) : List TaskRow :=
  ((sortDescBy (fun t => t.created_at) tasks).drop offset).take limit

/-- The persistent state touched by `delete_task`: the task table and the
set of stored upload files. -/
structure AppState where
  tasks : List TaskRow
  files : List PyStr
deriving Repr

/-- `os.remove` behaviour: which paths raise when removed. -/
structure OsEnv where
  removeRaises : PyStr → Bool

/-- `if os.path.exists(p): os.remove(p)`; `none` means the removal
raised. -/
def removeIfExists (env : OsEnv) (files : List PyStr) (p : PyStr) :
    Option (List PyStr) :=
  if p ∈ files then
    if env.removeRaises p then none
    else some (files.filter (fun q => ¬ (q = p)))
  else some files

/-- The file-removal `try` block of `delete_task`: remove the CV file,
then the report file; an exception anywhere is caught (leaving later
removals undone). -/
def deleteTaskFiles (env : OsEnv) (files : List PyStr) (task : TaskRow) :
    List PyStr :=
  match removeIfExists env files task.cv_file_path with
  | none => files
  | some files1 =>
    match removeIfExists env files1 task.project_report_path with
    | none => files1
    | some files2 => files2

/-- The `/task/task_id` DELETE handler `delete_task`: 404 for an unknown
id; otherwise best-effort file removal followed by unconditional record
deletion. -/
def delete_task (st : AppState) (env : OsEnv) (task_id : String) :
    Except HTTPException (AppState × PyStr) :=
  match st.tasks.find? (fun t => t.id == task_id) with
  | none => .error { status_code := 404, detail := S "Task not found" }
  | some task =>
    let files' := deleteTaskFiles env st.files task
    .ok ({ tasks := st.tasks.filter (fun t => ¬ (t.id = task_id)),
           files := files' },
         S "Task deleted successfully")

/-! ## Sample data for witnesses -/

/-- A well-formed CV-extraction response. -/
def sampleCvExtractJson : PyStr :=
  S "\x7b\"skills\": [\"Python\", \"Docker\"], \"experiences\": [], \"projects\": [], \"education\": [], \"years_of_experience\": 4, \"achievements\": []\x7d"

/-- A well-formed CV-match response (match rate 0.5). -/
def sampleCvMatchJson : PyStr :=
  S "\x7b\"match_rate\": 0.5, \"feedback\": \"good fit\", \"detailed_scores\": \x7b\"technical_skills_match\": 4, \"experience_level\": 4, \"relevant_achievements\": 3, \"cultural_fit\": 4, \"overall_score\": 4\x7d\x7d"

/-- A well-formed project-evaluation response (score 7.0). -/
def sampleProjJson : PyStr :=
  S "\x7b\"score\": 7.0, \"feedback\": \"solid work\", \"detailed_scores\": \x7b\"correctness\": 4, \"code_quality\": 4, \"resilience\": 3, \"documentation\": 4, \"creativity\": 3, \"overall_score\": 4\x7d\x7d"

/-- A pipeline environment in which every external call succeeds. -/
def sampleEnv : PipelineEnv :=
  { store := defaultStore
    readPdf := fun _ => .ok (S "pdf text")
    readDocx := fun _ => .ok (S "docx text")
    readTxt := fun _ => .ok (S "txt text")
    delayFailure := none
    cvExtractResp := .ok sampleCvExtractJson
    cvMatchResp := .ok sampleCvMatchJson
    projInitResp := .ok sampleProjJson
    projRefineResp := .ok sampleProjJson
    summaryResp := .ok (S "A strong candidate.") }

/-- A freshly created task row. -/
def sampleTask : TaskRow :=
  { id := "t1", status := .queued, cv_file_path := S "uploads/cv.pdf",
    project_report_path := S "uploads/report.txt",
    job_description := some (S "Backend Developer position"),
    result := none, error_message := none, created_at := 0 }

/-- The evaluation result produced from the sample responses. -/
def sampleResult : EvaluationResult :=
  { cv_match_rate := ⟨5, 1⟩, cv_feedback := S "good fit", project_score := ⟨70, 1⟩,
    project_feedback := S "solid work",
    overall_summary := S "A strong candidate.",
    cv_evaluation_details := some
      { technical_skills_match := 4, experience_level := 4,
        relevant_achievements := 3, cultural_fit := 4, overall_score := 4 },
    project_evaluation_details := some
      { correctness := 4, code_quality := 4, resilience := 3,
        documentation := 4, creativity := 3, overall_score := 4 } }

/-! ## Helper lemmas -/

theorem json_loads_error {s : PyStr} {e : PyError}
    (h : json_loads s = .error e) : e = .jsonDecodeError := by
  unfold json_loads at h
  rcases hp : parseValue (2 * s.length + 4) s with _ | ⟨v, rest⟩ <;> rw [hp] at h
  · exact (Except.error.inj h).symm
  · by_cases hr : skipWs rest = [] <;> simp [hr] at h
    exact h.symm

/-! ## Claim C2: retry exhaustion -/

/-- C2 counterexample: when every underlying attempt raises
`gatewayError "boom"`, the wrapper does make exactly 3 attempts, but what
it raises is `RetryError` wrapping the final error — not the final error
itself, contrary to the claim. -/
theorem generate_content_retry_wraps_error_cex :
    (generate_content_async (fun _ => .error (.gatewayError (S "boom")))).2 = 3 ∧
    (generate_content_async (fun _ => .error (.gatewayError (S "boom")))).1 =
      .error (.retryError (.gatewayError (S "boom"))) ∧
    (generate_content_async (fun _ => .error (.gatewayError (S "boom")))).1 ≠
      .error (.gatewayError (S "boom")) := by
  refine ⟨rfl, rfl, fun h => ?_⟩
  rw [show (generate_content_async (fun _ => .error (.gatewayError (S "boom")))).1 =
      .error (.retryError (.gatewayError (S "boom"))) from rfl] at h
  injection h with h'
  exact PyError.noConfusion h'

/-- C2 (amended): if the underlying generation call raises on every
attempt, `generate_content_async` makes exactly 3 attempts and then
raises a retry-exhaustion error wrapping the error of the final (third)
attempt. -/
theorem generate_content_retry_exhaustion (call : Nat → Except PyError PyStr)
    (errs : Nat → PyError) (h : ∀ i, call i = .error (errs i)) :
    generate_content_async call = (.error (.retryError (errs 3)), 3) := by
  simp [generate_content_async, retryLoop, h 1, h 2, h 3]

theorem generate_content_retry_exhaustion_witness :
    generate_content_async (fun _ => .error (.gatewayError (S "boom"))) =
      (.error (.retryError (.gatewayError (S "boom"))), 3) :=
  generate_content_retry_exhaustion (fun _ => .error (.gatewayError (S "boom")))
    (fun _ => .gatewayError (S "boom")) (fun _ => rfl)

/-! ## Claim C5: project-evaluation parse fallback -/

/-- C5: if either the initial project-evaluation response or the
refinement response fails to parse as JSON, `evaluate_project_report`
returns exactly the documented default: score 5.0, the generic feedback
string, and every sub-score equal to 3. -/
theorem project_parse_failure_default (r1 r2 : PyStr)
    (h : json_loads (cleanJsonText r1) = .error .jsonDecodeError ∨
         json_loads (cleanJsonText r2) = .error .jsonDecodeError) :
    evaluate_project_report (.ok r1) (.ok r2) =
      .ok (Json.num 5, Json.str (S "Unable to evaluate project properly"),
        { correctness := 3, code_quality := 3, resilience := 3,
          documentation := 3, creativity := 3, overall_score := 3 }) := by
  rcases h with h1 | h2
  · simp [evaluate_project_report, h1, projectFallback]
  · rcases hj : json_loads (cleanJsonText r1) with e | j
    · obtain rfl := json_loads_error hj
      simp [evaluate_project_report, hj, projectFallback]
    · simp [evaluate_project_report, hj, h2, projectFallback]

theorem project_parse_failure_default_witness :
    evaluate_project_report (.ok (S "OOPS not json")) (.ok sampleProjJson) =
      .ok (Json.num 5, Json.str (S "Unable to evaluate project properly"),
        { correctness := 3, code_quality := 3, resilience := 3,
          documentation := 3, creativity := 3, overall_score := 3 }) :=
  project_parse_failure_default (S "OOPS not json") sampleProjJson (Or.inl rfl)

/-! ## Claim C3: what the per-step fallbacks absorb -/

/-- The pipeline environment of the C3 counterexample: the CV-extraction
call succeeds and returns the valid JSON text of an empty object. -/
def c3Env : PipelineEnv := { sampleEnv with cvExtractResp := .ok (S "\x7b\x7d") }

/-- C3 counterexample: an empty JSON object is a gateway-successful but
malformed extraction response (it decodes as JSON yet misses every
required profile field); it raises an uncaught validation error and the
task terminates in Failed — so malformed output alone can fail a task. -/
theorem malformed_valid_json_fails_task_cex :
    json_loads (cleanJsonText (S "\x7b\x7d")) = .ok (Json.obj []) ∧
    extract_cv_structure c3Env.cvExtractResp = .error .validationError ∧
    finalStatus (run_evaluation c3Env sampleTask) = some .failed :=
  ⟨rfl, rfl, rfl⟩

/-- C3 (amended): the per-step fallbacks absorb exactly the JSON-decode
failures (plus missing top-level keys in the match and project steps);
a response that decodes as JSON but fails model validation — such as an
object missing the required profile fields — propagates its error out of
the step instead of being replaced by the neutral default. -/
theorem parse_failure_fallback_scope :
    (∀ r : PyStr, json_loads (cleanJsonText r) = .error .jsonDecodeError →
      extract_cv_structure (.ok r) = .ok ExtractedCVData.empty ∧
      evaluate_cv_match (.ok r) = .ok cvMatchFallback ∧
      (∀ r2 : PyStr, evaluate_project_report (.ok r) (.ok r2) = .ok projectFallback)) ∧
    (∀ r : PyStr, json_loads (cleanJsonText r) = .ok (Json.obj []) →
      extract_cv_structure (.ok r) = .error .validationError) := by
  constructor
  · intro r h
    refine ⟨?_, ?_, fun r2 => ?_⟩
    · simp [extract_cv_structure, h]
    · simp [evaluate_cv_match, h]
    · simp [evaluate_project_report, h]
  · intro r h
    simp [extract_cv_structure, h, ExtractedCVData.validate, fieldStrList, lookupLast]

theorem parse_failure_fallback_scope_witness :
    extract_cv_structure (.ok (S "totally not json")) = .ok ExtractedCVData.empty ∧
    extract_cv_structure (.ok (S "\x7b\x7d")) = .error .validationError :=
  ⟨(parse_failure_fallback_scope.1 (S "totally not json") rfl).1,
   parse_failure_fallback_scope.2 (S "\x7b\x7d") rfl⟩

/-! ## Claim C10: retrieval never raises -/

/-- C10: `retrieve_context` is a total function into plain lists; every
exception of the underlying computation is absorbed and the empty list
returned, and a successful computation is passed through unchanged. -/
theorem retrieve_context_absorbs_errors :
    (∀ store q tf n e, retrieve_context_body store q tf n = .error e →
        retrieve_context store q tf n = []) ∧
    (∀ store q tf n docs, retrieve_context_body store q tf n = .ok docs →
        retrieve_context store q tf n = docs) := by
  constructor <;> intro store q tf n x h <;> simp [retrieve_context, h]

/-- A store whose single document lacks the `content` field, making the
retrieval body raise `KeyError`. -/
def malformedStore : Store := [("x", [("id", S "x")])]

theorem retrieve_context_absorbs_errors_witness :
    retrieve_context_body malformedStore (S "a") none 3 = .error .keyError ∧
    retrieve_context malformedStore (S "a") none 3 = [] :=
  ⟨rfl, retrieve_context_absorbs_errors.1 malformedStore (S "a") none 3 .keyError rfl⟩

/-! ## Claim C1: task lifecycle -/

/-- The task invariant: `result` is set iff the status is Completed,
`error_message` is set iff the status is Failed, and never both. -/
def TaskInv (r : TaskRow) : Prop :=
  (r.result.isSome ↔ r.status = .completed) ∧
  (r.error_message.isSome ↔ r.status = .failed) ∧
  ¬ (r.result.isSome ∧ r.error_message.isSome)

/-- The allowed status transitions. -/
inductive LifecycleStep : TaskStatus → TaskStatus → Prop where
  | pickup : LifecycleStep .queued .processing
  | complete : LifecycleStep .processing .completed
  | fail : LifecycleStep .processing .failed

/-- C1: every run of the pipeline drives a freshly created task through
`Queued → Processing → Completed/Failed` only, and every intermediate
row satisfies the result/error invariant. -/
theorem run_evaluation_lifecycle (env : PipelineEnv) (task : TaskRow)
    (hq : task.status = .queued) (hr : task.result = none)
    (he : task.error_message = none) :
    List.Chain' LifecycleStep ((run_evaluation env task).map (fun r => r.status)) ∧
    ∀ r ∈ run_evaluation env task, TaskInv r := by
  have hinv0 : TaskInv task := by
    simp [TaskInv, hq, hr, he]
  have hinv1 : TaskInv { task with status := .processing } := by
    simp [TaskInv, hr, he]
  have mem3 : ∀ a b c r : TaskRow, r ∈ [a, b, c] → r = a ∨ r = b ∨ r = c := by
    intro a b c r h
    simpa using h
  unfold run_evaluation
  rcases env.delayFailure with _ | msg
  · rcases _execute_pipeline env task with e | res
    · refine ⟨?_, ?_⟩
      · simp only [List.map_cons, List.map_nil, hq]
        exact List.Chain'.cons LifecycleStep.pickup
          (List.Chain'.cons LifecycleStep.fail (List.chain'_singleton _))
      · intro r hrr
        rcases mem3 _ _ _ _ hrr with rfl | rfl | rfl
        · exact hinv0
        · exact hinv1
        · simp [TaskInv, hr]
    · refine ⟨?_, ?_⟩
      · simp only [List.map_cons, List.map_nil, hq]
        exact List.Chain'.cons LifecycleStep.pickup
          (List.Chain'.cons LifecycleStep.complete (List.chain'_singleton _))
      · intro r hrr
        rcases mem3 _ _ _ _ hrr with rfl | rfl | rfl
        · exact hinv0
        · exact hinv1
        · simp [TaskInv, he]
  · refine ⟨?_, ?_⟩
    · simp only [List.map_cons, List.map_nil, hq]
      exact List.Chain'.cons LifecycleStep.pickup
        (List.Chain'.cons LifecycleStep.fail (List.chain'_singleton _))
    · intro r hrr
      rcases mem3 _ _ _ _ hrr with rfl | rfl | rfl
      · exact hinv0
      · exact hinv1
      · simp [TaskInv, hr]

theorem run_evaluation_lifecycle_witness :
    sampleTask.status = .queued ∧
    List.Chain' LifecycleStep
      ((run_evaluation sampleEnv sampleTask).map (fun r => r.status)) :=
  ⟨rfl, (run_evaluation_lifecycle sampleEnv sampleTask rfl rfl rfl).1⟩

/-! ## Claim C4: non-JSON extraction still completes -/

/-- C4: if the CV-extraction call returns text that is not valid JSON,
the step yields the empty profile instead of raising, the pipeline runs
to the end, and (provided the remaining steps behave) the task reaches
Completed with a result attached. -/
theorem cv_extraction_fallback_completes (env : PipelineEnv) (task : TaskRow)
    (resp cvt pjt : PyStr) (mr fb ps pfb : Json)
    (ce : CVEvaluation) (pe : ProjectEvaluation) (res : EvaluationResult)
    (hdelay : env.delayFailure = none)
    (hresp : env.cvExtractResp = .ok resp)
    (hnj : json_loads (cleanJsonText resp) = .error .jsonDecodeError)
    (hcv : extract_text_from_file env task.cv_file_path = .ok cvt)
    (hpj : extract_text_from_file env task.project_report_path = .ok pjt)
    (hmatch : evaluate_cv_match env.cvMatchResp = .ok (mr, fb, ce))
    (hproj : evaluate_project_report env.projInitResp env.projRefineResp =
      .ok (ps, pfb, pe))
    (hres : mkEvaluationResult mr fb ps pfb
      (generate_overall_summary env.summaryResp) ce pe = .ok res) :
    extract_cv_structure env.cvExtractResp = .ok ExtractedCVData.empty ∧
    run_evaluation env task =
      [task, { task with status := .processing },
       { task with status := .completed, result := some res }] ∧
    finalStatus (run_evaluation env task) = some .completed := by
  have hextract : extract_cv_structure env.cvExtractResp = .ok ExtractedCVData.empty := by
    simp [extract_cv_structure, hresp, hnj]
  have hpipe : _execute_pipeline env task = .ok res := by
    simp [_execute_pipeline, hcv, hpj, hextract, hmatch, hproj, hres]
  have htrace : run_evaluation env task =
      [task, { task with status := .processing },
       { task with status := .completed, result := some res }] := by
    simp [run_evaluation, hdelay, hpipe]
  exact ⟨hextract, htrace, by simp [finalStatus, htrace]⟩

/-- The pipeline environment of the C4 witness: the CV-extraction call
succeeds but returns non-JSON text. -/
def c4Env : PipelineEnv := { sampleEnv with cvExtractResp := .ok (S "not a json payload") }

theorem cv_extraction_fallback_completes_witness :
    json_loads (cleanJsonText (S "not a json payload")) = .error .jsonDecodeError ∧
    extract_cv_structure c4Env.cvExtractResp = .ok ExtractedCVData.empty ∧
    finalStatus (run_evaluation c4Env sampleTask) = some .completed := by
  have h := cv_extraction_fallback_completes c4Env sampleTask
    (S "not a json payload") (S "pdf text") (S "txt text")
    (Json.num ⟨5, 1⟩) (Json.str (S "good fit")) (Json.num ⟨70, 1⟩)
    (Json.str (S "solid work"))
    { technical_skills_match := 4, experience_level := 4,
      relevant_achievements := 3, cultural_fit := 4, overall_score := 4 }
    { correctness := 4, code_quality := 4, resilience := 3,
      documentation := 4, creativity := 3, overall_score := 4 }
    sampleResult rfl rfl (by rfl) (by rfl) (by rfl) (by rfl) (by rfl) (by rfl)
  exact ⟨by rfl, h.1, h.2.2⟩

/-! ## Claim C8: synchronous rejection of input errors -/

/-- The task created by the C8 counterexample submission. -/
def c8Task : TaskRow :=
  { id := "t2", status := .queued, cv_file_path := S "uploads/cv.xyz",
    project_report_path := S "uploads/report.txt",
    job_description := some (S "Backend Developer position"),
    result := none, error_message := none, created_at := 0 }

/-- C8 counterexample: a submission through `/evaluate` whose CV file
exists but has an unsupported format is not rejected — a task is created
in Queued, and running it records the task as Failed. -/
theorem evaluate_route_unchecked_format_cex :
    validate_file_format (S "cv.xyz") = false ∧
    create_evaluation_task (fun _ => true) (S "uploads/cv.xyz")
      (S "uploads/report.txt") (S "Backend Developer position") "t2" 0 =
      .ok c8Task ∧
    finalStatus (run_evaluation sampleEnv c8Task) = some .failed :=
  ⟨rfl, rfl, rfl⟩

/-- C8 (amended): the synchronous input-error checks are
endpoint-specific.  `/evaluate` rejects missing files with a 404 before
any task exists and otherwise creates the task in Queued with no result
or error; `/evaluate-direct` rejects unsupported formats and oversized
files with a 400 before any task exists.  `/evaluate` itself performs no
format or size validation, so a path to an existing file of unsupported
format becomes a task that later fails (see the counterexample). -/
theorem input_error_rejection_scope :
    (∀ ex cv proj jd id now, ex cv = false →
      create_evaluation_task ex cv proj jd id now =
        .error { status_code := 404, detail := S "CV file not found" }) ∧
    (∀ ex cv proj jd id now, ex cv = true → ex proj = false →
      create_evaluation_task ex cv proj jd id now =
        .error { status_code := 404, detail := S "Project report file not found" }) ∧
    (∀ ex cv proj jd id now t,
      create_evaluation_task ex cv proj jd id now = .ok t →
      t.status = .queued ∧ t.result = none ∧ t.error_message = none) ∧
    (∀ cvn pn cs ps jd sid id now,
      (validate_file_format cvn = false ∨ validate_file_format pn = false ∨
       MAX_FILE_SIZE < cs ∨ MAX_FILE_SIZE < ps) →
      ∃ e, evaluate_files_direct cvn pn cs ps jd sid id now = .error e ∧
        e.status_code = 400) := by
  refine ⟨?_, ?_, ?_, ?_⟩
  · intro ex cv proj jd id now h
    simp [create_evaluation_task, h]
  · intro ex cv proj jd id now h1 h2
    simp [create_evaluation_task, h1, h2]
  · intro ex cv proj jd id now t h
    unfold create_evaluation_task at h
    by_cases h1 : ex cv = false
    · simp [h1] at h
    · by_cases h2 : ex proj = false
      · simp [h1, h2] at h
      · simp only [h1, h2, if_false] at h
        cases h
        exact ⟨rfl, rfl, rfl⟩
  · intro cvn pn cs ps jd sid id now h
    by_cases h1 : validate_file_format cvn = false
    · exact ⟨{ status_code := 400,
               detail := S "Invalid CV file format. Supported: PDF, DOCX, TXT" },
        by simp [evaluate_files_direct, h1], rfl⟩
    · by_cases h2 : validate_file_format pn = false
      · exact ⟨{ status_code := 400,
                 detail := S "Invalid project report file format. Supported: PDF, DOCX, TXT" },
          by simp [evaluate_files_direct, h1, h2], rfl⟩
      · by_cases h3 : MAX_FILE_SIZE < cs
        · exact ⟨{ status_code := 400,
                   detail := S "CV file too large (max 10MB)" },
            by simp [evaluate_files_direct, h1, h2, h3], rfl⟩
        · by_cases h4 : MAX_FILE_SIZE < ps
          · exact ⟨{ status_code := 400,
                     detail := S "Project report file too large (max 10MB)" },
              by simp [evaluate_files_direct, h1, h2, h3, h4], rfl⟩
          · rcases h with h | h | h | h <;> simp_all

theorem input_error_rejection_scope_witness :
    create_evaluation_task (fun _ => false) (S "uploads/cv.pdf")
        (S "uploads/report.txt") (S "jd") "t3" 0 =
      .error { status_code := 404, detail := S "CV file not found" } ∧
    validate_file_format (S "cv.xyz") = false ∧
    (∃ e, evaluate_files_direct (S "cv.xyz") (S "report.txt") 10 10 (S "jd")
        "s" "t4" 0 = .error e ∧ e.status_code = 400) :=
  ⟨input_error_rejection_scope.1 (fun _ => false) (S "uploads/cv.pdf")
      (S "uploads/report.txt") (S "jd") "t3" 0 rfl,
   rfl,
   input_error_rejection_scope.2.2.2 (S "cv.xyz") (S "report.txt") 10 10
      (S "jd") "s" "t4" 0 (Or.inl rfl)⟩

/-! ## Sorting lemmas -/

theorem mem_insertDescBy {α : Type} (key : α → Nat) (x : α) (l : List α)
    (a : α) : a ∈ insertDescBy key x l ↔ a = x ∨ a ∈ l := by
  induction l with
  | nil => simp [insertDescBy]
  | cons y ys ih =>
    simp only [insertDescBy]
    split
    · simp [List.mem_cons]
    · simp only [List.mem_cons, ih]
      tauto

theorem mem_sortDescBy {α : Type} (key : α → Nat) (l : List α) (a : α) :
    a ∈ sortDescBy key l ↔ a ∈ l := by
  induction l with
  | nil => simp [sortDescBy]
  | cons y ys ih => simp [sortDescBy, mem_insertDescBy, ih]

theorem pairwise_insertDescBy {α : Type} (key : α → Nat) (x : α) (l : List α)
    (h : l.Pairwise (fun a b => key b ≤ key a)) :
    (insertDescBy key x l).Pairwise (fun a b => key b ≤ key a) := by
  induction l with
  | nil => simp [insertDescBy]
  | cons y ys ih =>
    rw [List.pairwise_cons] at h
    simp only [insertDescBy]
    split
    · rename_i hyx
      rw [List.pairwise_cons]
      refine ⟨?_, List.Pairwise.cons h.1 h.2⟩
      intro b hb
      rcases List.mem_cons.mp hb with rfl | h'
      · exact hyx
      · exact le_trans (h.1 b h') hyx
    · rename_i hyx
      rw [List.pairwise_cons]
      refine ⟨?_, ih h.2⟩
      intro b hb
      rcases (mem_insertDescBy key x ys b).mp hb with rfl | h'
      · exact le_of_not_le hyx
      · exact h.1 b h'

theorem pairwise_sortDescBy {α : Type} (key : α → Nat) (l : List α) :
    (sortDescBy key l).Pairwise (fun a b => key b ≤ key a) := by
  induction l with
  | nil => simp [sortDescBy]
  | cons y ys ih => exact pairwise_insertDescBy key y _ ih

theorem filter_insertDescBy {α : Type} (key : α → Nat) (x : α) (l : List α)
    (k : Nat) :
    (insertDescBy key x l).filter (fun a => decide (key a = k)) =
      if key x = k then x :: l.filter (fun a => decide (key a = k))
      else l.filter (fun a => decide (key a = k)) := by
  induction l with
  | nil =>
    by_cases hx : key x = k <;> simp [insertDescBy, List.filter, hx]
  | cons y ys ih =>
    simp only [insertDescBy]
    split
    · rename_i hyx
      by_cases hx : key x = k <;> simp [List.filter_cons, hx]
    · rename_i hyx
      by_cases hx : key x = k
      · have hy : ¬ (key y = k) := by
          intro hk
          exact hyx (le_of_eq (hx ▸ hk))
        simp [List.filter_cons, hy, ih, hx]
      · by_cases hy : key y = k <;> simp [List.filter_cons, hy, ih, hx]

/-- Stability of the sort: within each equal-score class, the sorted list
keeps the original order. -/
theorem filter_sortDescBy {α : Type} (key : α → Nat) (l : List α) (k : Nat) :
    (sortDescBy key l).filter (fun a => decide (key a = k)) =
      l.filter (fun a => decide (key a = k)) := by
  induction l with
  | nil => simp [sortDescBy]
  | cons y ys ih =>
    simp only [sortDescBy, filter_insertDescBy, ih]
    by_cases hy : key y = k <;> simp [List.filter_cons, hy]

/-! ## Claim C9: task deletion -/

theorem removeIfExists_not_mem (env : OsEnv) (files : List PyStr) (p : PyStr)
    (h : env.removeRaises p = false) :
    ∃ files', removeIfExists env files p = some files' ∧ p ∉ files' := by
  by_cases hc : p ∈ files
  · refine ⟨files.filter (fun q => ¬ (q = p)), by simp [removeIfExists, hc, h], ?_⟩
    intro hmem
    have := (List.mem_filter.mp hmem).2
    simp at this
  · exact ⟨files, by simp [removeIfExists, hc], hc⟩

theorem removeIfExists_subset (env : OsEnv) (files : List PyStr) (p : PyStr)
    (f' : List PyStr) (h : removeIfExists env files p = some f') :
    ∀ q, q ∉ files → q ∉ f' := by
  intro q hq
  unfold removeIfExists at h
  by_cases hc : p ∈ files
  · by_cases hr : env.removeRaises p
    · simp [hc, hr] at h
    · simp [hc, hr] at h
      subst h
      intro hmem
      exact hq (List.mem_of_mem_filter hmem)
  · simp [hc] at h
    subst h
    exact hq

/-- File removal conclusions of `delete_task`. -/
theorem deleteTaskFiles_removes (env : OsEnv) (files : List PyStr)
    (t : TaskRow) :
    (env.removeRaises t.cv_file_path = false →
      t.cv_file_path ∉ deleteTaskFiles env files t) ∧
    (env.removeRaises t.cv_file_path = false →
     env.removeRaises t.project_report_path = false →
      t.project_report_path ∉ deleteTaskFiles env files t) := by
  constructor
  · intro h1
    obtain ⟨f1, e1, hnot1⟩ := removeIfExists_not_mem env files t.cv_file_path h1
    rcases e2 : removeIfExists env f1 t.project_report_path with _ | f2
    · simpa [deleteTaskFiles, e1, e2] using hnot1
    · have hsub :=
        removeIfExists_subset env f1 t.project_report_path f2 e2 t.cv_file_path hnot1
      simpa [deleteTaskFiles, e1, e2] using hsub
  · intro h1 h2
    obtain ⟨f1, e1, _⟩ := removeIfExists_not_mem env files t.cv_file_path h1
    obtain ⟨f2, e2, hnot2⟩ := removeIfExists_not_mem env f1 t.project_report_path h2
    simpa [deleteTaskFiles, e1, e2] using hnot2

/-- C9: deleting an existing task always removes its record — it no
longer appears through `get` nor on any `list` page — and removes its
input files when removal does not raise; a missing file or a raising
removal does not prevent the record deletion (best-effort). -/
theorem delete_task_removes (st : AppState) (env : OsEnv) (id : String)
    (t : TaskRow) (hfind : st.tasks.find? (fun r => r.id == id) = some t) :
    ∃ st' msg, delete_task st env id = .ok (st', msg) ∧
      get_evaluation_result st'.tasks id =
        .error { status_code := 404, detail := S "Task not found" } ∧
      (∀ limit offset r, r ∈ list_tasks st'.tasks limit offset → r.id ≠ id) ∧
      (env.removeRaises t.cv_file_path = false →
        t.cv_file_path ∉ st'.files) ∧
      (env.removeRaises t.cv_file_path = false →
       env.removeRaises t.project_report_path = false →
        t.project_report_path ∉ st'.files) := by
  refine ⟨{ tasks := st.tasks.filter (fun r => ¬ (r.id = id)),
            files := deleteTaskFiles env st.files t },
          S "Task deleted successfully", ?_, ?_, ?_, ?_, ?_⟩
  · simp [delete_task, hfind]
  · have hnone : (st.tasks.filter (fun r => ¬ (r.id = id))).find?
        (fun r => r.id == id) = none := by
      apply List.find?_eq_none.mpr
      intro x hx
      have hmem := (List.mem_filter.mp hx).2
      simp at hmem ⊢
      exact hmem
    simp only [get_evaluation_result]
    rw [hnone]
  · intro limit offset r hr
    unfold list_tasks at hr
    have h1 := List.mem_of_mem_take hr
    have h2 := List.mem_of_mem_drop h1
    have h3 := (mem_sortDescBy _ _ _).mp h2
    have hmem := (List.mem_filter.mp h3).2
    simpa using hmem
  · exact (deleteTaskFiles_removes env st.files t).1
  · exact (deleteTaskFiles_removes env st.files t).2

/-- The state of the C9 witness. -/
def c9State : AppState :=
  { tasks := [sampleTask],
    files := [S "uploads/cv.pdf", S "uploads/report.txt"] }

theorem delete_task_removes_witness :
    c9State.tasks.find? (fun r => r.id == "t1") = some sampleTask ∧
    (∃ st' msg, delete_task c9State ⟨fun _ => false⟩ "t1" = .ok (st', msg) ∧
      get_evaluation_result st'.tasks "t1" =
        .error { status_code := 404, detail := S "Task not found" } ∧
      (∀ limit offset r, r ∈ list_tasks st'.tasks limit offset → r.id ≠ "t1") ∧
      ((⟨fun _ => false⟩ : OsEnv).removeRaises sampleTask.cv_file_path = false →
        sampleTask.cv_file_path ∉ st'.files) ∧
      ((⟨fun _ => false⟩ : OsEnv).removeRaises sampleTask.cv_file_path = false →
       (⟨fun _ => false⟩ : OsEnv).removeRaises sampleTask.project_report_path = false →
        sampleTask.project_report_path ∉ st'.files)) :=
  ⟨rfl, delete_task_removes c9State ⟨fun _ => false⟩ "t1" sampleTask rfl⟩

/-! ## Claim C7: code-fence stripping -/

/-- The backquote character (`Char.ofNat 96`). -/
def backquote : Char := Char.ofNat 96

theorem isPrefixOf_self_append (x z : PyStr) : x.isPrefixOf (x ++ z) = true := by
  induction x with
  | nil => simp [List.isPrefixOf]
  | cons c cs ih => simp [List.isPrefixOf, ih]

theorem isPrefixOf_append_same (x y z : PyStr) :
    (x ++ y).isPrefixOf (x ++ z) = y.isPrefixOf z := by
  induction x with
  | nil => simp
  | cons c cs ih => simp [List.isPrefixOf, ih]

/-- `strip()` is the identity on a string whose first and last characters
are not whitespace. -/
theorem pyStrip_sandwich (x y : Char) (mid : PyStr)
    (hx : isWsChar x = false) (hy : isWsChar y = false) :
    pyStrip (x :: (mid ++ [y])) = x :: (mid ++ [y]) := by
  unfold pyStrip
  rw [List.dropWhile_cons]
  simp only [hx, Bool.false_eq_true, if_false]
  rw [show (x :: (mid ++ [y])).reverse = y :: (mid.reverse ++ [x]) by simp,
    List.dropWhile_cons]
  simp only [hy, Bool.false_eq_true, if_false]
  simp

theorem json_fence_decomp (p : PyStr) :
    S "```json" ++ p ++ S "```" =
      backquote :: ((S "``json" ++ p ++ S "``") ++ [backquote]) := by
  simp only [List.append_assoc]
  rfl

theorem plain_fence_decomp (p : PyStr) :
    S "```" ++ p ++ S "```" =
      backquote :: ((S "``" ++ p ++ S "``") ++ [backquote]) := by
  simp only [List.append_assoc]
  rfl

theorem strip_json_fence (p : PyStr) :
    pyStrip (S "```json" ++ p ++ S "```") = S "```json" ++ p ++ S "```" := by
  rw [json_fence_decomp]
  exact pyStrip_sandwich backquote backquote _ (by decide) (by decide)

theorem strip_plain_fence (p : PyStr) :
    pyStrip (S "```" ++ p ++ S "```") = S "```" ++ p ++ S "```" := by
  rw [plain_fence_decomp]
  exact pyStrip_sandwich backquote backquote _ (by decide) (by decide)

theorem slice_json_fence (p : PyStr) :
    pySliceDropEnds 7 3 (S "```json" ++ p ++ S "```") = p := by
  unfold pySliceDropEnds
  have hdrop : (S "```json" ++ p ++ S "```").drop 7 = p ++ S "```" := by
    rw [List.append_assoc]
    rfl
  have hlen : (S "```json" ++ p ++ S "```").length = 7 + p.length + 3 := by
    simp [List.length_append, show (S "```json").length = 7 from rfl,
      show (S "```").length = 3 from rfl]
    omega
  rw [hdrop, hlen, show 7 + p.length + 3 - 7 - 3 = p.length by omega]
  exact List.take_left' rfl

theorem slice_plain_fence (p : PyStr) :
    pySliceDropEnds 3 3 (S "```" ++ p ++ S "```") = p := by
  unfold pySliceDropEnds
  have hdrop : (S "```" ++ p ++ S "```").drop 3 = p ++ S "```" := by
    rw [List.append_assoc]
    rfl
  have hlen : (S "```" ++ p ++ S "```").length = 3 + p.length + 3 := by
    simp [List.length_append, show (S "```").length = 3 from rfl]
    omega
  rw [hdrop, hlen, show 3 + p.length + 3 - 3 - 3 = p.length by omega]
  exact List.take_left' rfl

theorem cleanJsonText_json_fence (p : PyStr) :
    cleanJsonText (S "```json" ++ p ++ S "```") = p := by
  have hpre : (S "```json").isPrefixOf (S "```json" ++ p ++ S "```") = true := by
    rw [List.append_assoc]
    exact isPrefixOf_self_append _ _
  simp only [cleanJsonText, strip_json_fence, hpre, if_true]
  exact slice_json_fence p

theorem cleanJsonText_plain_fence (p : PyStr)
    (hj : (S "json").isPrefixOf (p ++ S "```") = false) :
    cleanJsonText (S "```" ++ p ++ S "```") = p := by
  have h7 : (S "```json").isPrefixOf (S "```" ++ p ++ S "```") = false := by
    rw [List.append_assoc, show (S "```json") = S "```" ++ S "json" from rfl,
      isPrefixOf_append_same]
    exact hj
  have h3 : (S "```").isPrefixOf (S "```" ++ p ++ S "```") = true := by
    rw [List.append_assoc]
    exact isPrefixOf_self_append _ _
  simp only [cleanJsonText, strip_plain_fence, h7, h3, Bool.false_eq_true,
    if_false, if_true]
  exact slice_plain_fence p

theorem cleanJsonText_bare (p : PyStr) (hstrip : pyStrip p = p)
    (hb : (S "```").isPrefixOf p = false) :
    cleanJsonText p = p := by
  have h7 : (S "```json").isPrefixOf p = false := by
    by_cases h : (S "```json").isPrefixOf p = true
    · exfalso
      have hpre : S "```json" <+: p := List.isPrefixOf_iff_prefix.mp h
      have h3 : S "```" <+: p :=
        List.IsPrefix.trans ⟨S "json", rfl⟩ hpre
      have h3' := List.isPrefixOf_iff_prefix.mpr h3
      rw [hb] at h3'
      exact Bool.false_ne_true h3'
    · exact Bool.eq_false_iff.mpr h
  simp only [cleanJsonText, hstrip, h7, hb, Bool.false_eq_true, if_false]

/-- C7: a payload wrapped in a ```` ```json ```` or ```` ``` ```` code
fence parses to the same structured result as the bare payload (for
payloads that are themselves stripped and unfenced). -/
theorem code_fence_parse_equiv (p : PyStr)
    (hstrip : pyStrip p = p)
    (hb : (S "```").isPrefixOf p = false)
    (hj : (S "json").isPrefixOf (p ++ S "```") = false) :
    json_loads (cleanJsonText (S "```json" ++ p ++ S "```")) =
      json_loads (cleanJsonText p) ∧
    json_loads (cleanJsonText (S "```" ++ p ++ S "```")) =
      json_loads (cleanJsonText p) := by
  rw [cleanJsonText_json_fence p, cleanJsonText_plain_fence p hj,
    cleanJsonText_bare p hstrip hb]
  exact ⟨rfl, rfl⟩

theorem code_fence_parse_equiv_witness :
    pyStrip (S "\x7b\"ok\": true\x7d") = S "\x7b\"ok\": true\x7d" ∧
    json_loads (cleanJsonText (S "```json" ++ S "\x7b\"ok\": true\x7d" ++ S "```")) =
      json_loads (cleanJsonText (S "\x7b\"ok\": true\x7d")) ∧
    json_loads (cleanJsonText (S "```" ++ S "\x7b\"ok\": true\x7d" ++ S "```")) =
      json_loads (cleanJsonText (S "\x7b\"ok\": true\x7d")) := by
  have h := code_fence_parse_equiv (S "\x7b\"ok\": true\x7d") (by decide)
    (by decide) (by decide)
  exact ⟨by decide, h.1, h.2⟩

/-! ## Claim C6: retrieval matches the spec's contract -/

theorem relevance_eq (q c : PyStr) :
    keywordScore (pySplitWs (pyLower q)) (pyLower c) = relevance q c := rfl

theorem collectDocs_eq (q : PyStr) (tf : Option PyStr) (store : Store)
    (h : WFStore store) :
    collectDocs (pySplitWs (pyLower q)) tf store =
      .ok (specCandidates store q tf) := by
  induction store with
  | nil => simp [collectDocs, specCandidates]
  | cons entry rest ih =>
    obtain ⟨did, doc⟩ := entry
    obtain ⟨hc', hdt', hcat'⟩ := h ⟨did, doc⟩ (List.mem_cons_self _ _)
    obtain ⟨c, hc⟩ := Option.isSome_iff_exists.mp hc'
    obtain ⟨dt, hdt⟩ := Option.isSome_iff_exists.mp hdt'
    obtain ⟨cat, hcat⟩ := Option.isSome_iff_exists.mp hcat'
    have hrest : WFStore rest := fun e he => h e (List.mem_cons_of_mem _ he)
    have ihr := ih hrest
    rcases tf with _ | t
    · by_cases hsc : 0 < relevance q c <;>
        simp [collectDocs, specCandidates, dictGetE, hc, hdt, hcat,
          List.filterMap_cons, relevance_eq, hsc, ihr]
    · by_cases hdtt : dt = t
      · by_cases hsc : 0 < relevance q c <;>
          simp [collectDocs, specCandidates, dictGetE, hc, hdt, hcat,
            List.filterMap_cons, relevance_eq, hsc, hdtt, ihr]
      · simp [collectDocs, specCandidates, dictGetE, hc, hdt, hcat,
          List.filterMap_cons, hdtt, ihr]

theorem retrieve_context_eq_spec (store : Store) (q : PyStr)
    (tf : Option PyStr) (n : Nat) (h : WFStore store) :
    retrieve_context store q tf n = retrieve_spec store q tf n := by
  simp [retrieve_context, retrieve_context_body, collectDocs_eq q tf store h,
    retrieve_spec]

theorem retrieve_context_shape (store : Store) (q : PyStr)
    (tf : Option PyStr) (n : Nat) :
    retrieve_context store q tf n = [] ∨
    ∃ l, retrieve_context store q tf n =
      (sortDescBy (fun d => d.score) l).take n := by
  unfold retrieve_context retrieve_context_body
  rcases hc : collectDocs (pySplitWs (pyLower q)) tf store with e | l
  · left
    simp [hc]
  · right
    exact ⟨l, by simp [hc]⟩

theorem retrieve_context_length_le (store : Store) (q : PyStr)
    (tf : Option PyStr) (n : Nat) :
    (retrieve_context store q tf n).length ≤ n := by
  rcases retrieve_context_shape store q tf n with h | ⟨l, h⟩
  · simp [h]
  · rw [h]
    simp [List.length_take]

theorem retrieve_context_sorted (store : Store) (q : PyStr)
    (tf : Option PyStr) (n : Nat) :
    (retrieve_context store q tf n).Pairwise (fun a b => b.score ≤ a.score) := by
  rcases retrieve_context_shape store q tf n with h | ⟨l, h⟩
  · simp [h]
  · rw [h]
    exact List.Pairwise.sublist (List.take_sublist _ _)
      (pairwise_sortDescBy (fun d => d.score) l)

theorem exists_term_of_relevance_pos (q c : PyStr) (h : 0 < relevance q c) :
    ∃ term ∈ pySplitWs (pyLower q), pyInStr term (pyLower c) = true := by
  unfold relevance at h
  obtain ⟨x, hx⟩ := List.exists_mem_of_length_pos h
  obtain ⟨hmem, hpred⟩ := List.mem_filter.mp hx
  exact ⟨x, hmem, hpred⟩

theorem retrieve_context_mem (store : Store) (q : PyStr)
    (tf : Option PyStr) (n : Nat) (h : WFStore store)
    (d : RetrievedDoc) (hd : d ∈ retrieve_context store q tf n) :
    d.score = relevance q d.content ∧ 0 < d.score ∧
      (∀ t, tf = some t → d.mtype = t) ∧
      ∃ term ∈ pySplitWs (pyLower q), pyInStr term (pyLower d.content) = true := by
  rw [retrieve_context_eq_spec store q tf n h] at hd
  unfold retrieve_spec at hd
  have hd1 := List.mem_of_mem_take hd
  have hd2 := (mem_sortDescBy _ _ _).mp hd1
  unfold specCandidates at hd2
  obtain ⟨entry, hmem, hf⟩ := List.mem_filterMap.mp hd2
  dsimp only at hf
  split at hf
  · rename_i hcond
    obtain rfl := Option.some.inj hf
    rcases tf with _ | t <;> simp at hcond
    · exact ⟨rfl, hcond, by simp, exists_term_of_relevance_pos _ _ hcond⟩
    · obtain ⟨hmt, hrel⟩ := hcond
      refine ⟨rfl, hrel, ?_, exists_term_of_relevance_pos _ _ hrel⟩
      intro t' ht'
      obtain rfl := Option.some.inj ht'
      exact hmt
  · cases hf

/-- C6: under well-formed stores, `retrieve_context` coincides with the
retrieval contract worded by the spec (`retrieve_spec`): it returns only
positively relevant documents of the requested type, scored by query-term
overlap, in descending score order with ties kept in insertion order
(stability of the sort), and never more than `limit` of them; the §8
query on the default corpus concretely returns the two scoring rubrics
with scores 5 and 3. -/
theorem retrieve_context_matches_spec :
    (∀ store q tf n, WFStore store →
        retrieve_context store q tf n = retrieve_spec store q tf n) ∧
    (∀ store q tf n, (retrieve_context store q tf n).length ≤ n) ∧
    (∀ store q tf n, (retrieve_context store q tf n).Pairwise
        (fun a b => b.score ≤ a.score)) ∧
    (∀ store q tf n, WFStore store → ∀ d ∈ retrieve_context store q tf n,
        d.score = relevance q d.content ∧ 0 < d.score ∧
        (∀ t, tf = some t → d.mtype = t) ∧
        ∃ term ∈ pySplitWs (pyLower q), pyInStr term (pyLower d.content) = true) ∧
    (∀ (key : RetrievedDoc → Nat) k l,
        (sortDescBy key l).filter (fun a => decide (key a = k)) =
          l.filter (fun a => decide (key a = k))) ∧
    ((retrieve_context defaultStore (S "project evaluation rubric code quality")
        (some (S "scoring_rubric")) 2).map (fun d => (d.score, d.category)) =
      [(5, S "project_evaluation"), (3, S "cv_evaluation")]) :=
  ⟨fun store q tf n h => retrieve_context_eq_spec store q tf n h,
   retrieve_context_length_le,
   retrieve_context_sorted,
   fun store q tf n h d hd => retrieve_context_mem store q tf n h d hd,
   fun key k l => filter_sortDescBy key l k,
   by decide⟩

theorem retrieve_context_matches_spec_witness :
    WFStore defaultStore ∧
    retrieve_context defaultStore
        (S "CV evaluation scoring technical skills experience")
        (some (S "scoring_rubric")) 1 =
      retrieve_spec defaultStore
        (S "CV evaluation scoring technical skills experience")
        (some (S "scoring_rubric")) 1 :=
  ⟨by decide,
   retrieve_context_matches_spec.1 defaultStore
     (S "CV evaluation scoring technical skills experience")
     (some (S "scoring_rubric")) 1 (by decide)⟩

end CVEval
